import Mathlib

/-!
Verification of the OpenAPI-MCP proxy core: specification loader with
normalization and caching (`core/spec.py`), runtime configuration merging
(`core/config.py`), authentication strategy resolution (`core/auth.py`),
HTTP client base-URL derivation (`core/client.py`) and the proxy registry
(`server.py`, `core/server.py`).

The Python code is shallowly embedded: pure functions become Lean functions,
the loader's mutable cache becomes explicit state passing, exceptions become
`Except`, and external library calls (filesystem, httpx, yaml/json parsing,
pathlib canonicalization) become explicit function-valued parameters.
-/

/-! ## Generic string helpers (ASCII model of the Python `str` methods used) -/

/-- Model of `str.lower` for a single character (ASCII range, as used by the
configuration code for scheme and location names). -/
def lowerChar (c : Char) : Char :=
  if 65 ≤ c.toNat ∧ c.toNat ≤ 90 then Char.ofNat (c.toNat + 32) else c

/-- Model of `str.lower`. -/
def lowerStr (s : String) : String := String.mk (s.data.map lowerChar)

/-- Characters stripped by Python `str.strip()` with no argument. -/
def isPySpace (c : Char) : Bool :=
  c = ' ' || c = '\t' || c = '\n' || c = '\r' || c = '\x0b' || c = '\x0c'

def stripChars (l : List Char) : List Char :=
  ((l.dropWhile isPySpace).reverse.dropWhile isPySpace).reverse

/-- Model of `str.strip()`. -/
def pyStrip (s : String) : String := String.mk (stripChars s.data)

/-- Split a character list at the first occurrence of `sep`; `none` when the
separator does not occur.  Models `str.split(sep, 1)` for a one-character
separator that is known to occur. -/
def splitFirst (sep : Char) : List Char → Option (List Char × List Char)
  | [] => none
  | c :: rest =>
    if c = sep then some ([], rest)
    else
      match splitFirst sep rest with
      | some (pre, post) => some (c :: pre, post)
      | none => none

/-- Split a character list at every occurrence of `sep` (model of
`str.split(sep)`); the result is never empty. -/
def splitOnChar (sep : Char) : List Char → List (List Char)
  | [] => [[]]
  | c :: rest =>
    let r := splitOnChar sep rest
    if c = sep then [] :: r
    else
      match r with
      | [] => [[c]]
      | h :: t => (c :: h) :: t

/-! ## Association-list model of Python `dict` (string keys, insertion order
preserved, overwritten keys keep their original position) -/

def dictGet {α : Type} (d : List (String × α)) (k : String) : Option α :=
  match d with
  | [] => none
  | (k', v) :: rest => if k' = k then some v else dictGet rest k

/-- Model of `d[k] = v`: overwrite in place, or append a new key at the end. -/
def dictSet {α : Type} (d : List (String × α)) (k : String) (v : α) :
    List (String × α) :=
  match d with
  | [] => [(k, v)]
  | (k', v') :: rest =>
    if k' = k then (k', v) :: rest else (k', v') :: dictSet rest k v

/-- Model of `d.setdefault(k, v)` (restricted to its effect on the mapping). -/
def dictSetDefault {α : Type} (d : List (String × α)) (k : String) (v : α) :
    List (String × α) :=
  match dictGet d k with
  | some _ => d
  | none => d ++ [(k, v)]

/-- Model of `d.update(other)`: assign every key of `other` in order. -/
def dictUpdate {α : Type} (d other : List (String × α)) : List (String × α) :=
  other.foldl (fun acc kv => dictSet acc kv.1 kv.2) d

/-! ## Python value model

Parsed YAML/JSON content, configuration-fragment values and the loaded
OpenAPI documents are all generic Python values; `PyVal` models the subset
that the code can encounter (floats are modelled as rationals). -/

inductive PyVal where
  | str (v : String)
  | int (v : Int)
  | float (v : Rat)
  | bool (v : Bool)
  | null
  | list (xs : List PyVal)
  | dict (xs : List (String × PyVal))

/-- Python truthiness for the modelled values. -/
def PyVal.truthy : PyVal → Bool
  | .str v => v ≠ ""
  | .int v => v ≠ 0
  | .float v => v ≠ 0
  | .bool v => v
  | .null => false
  | .list xs => !xs.isEmpty
  | .dict xs => !xs.isEmpty

/-- Model of `str(v)` for the values the configuration code stringifies
(configuration values are strings in practice; the numeric renderings are a
deterministic approximation that no claim exercises). -/
def pyStr : PyVal → String
  | .str v => v
  | .int v => toString v
  | .float v => toString v
  | .bool v => if v then "True" else "False"
  | .null => "None"
  | .list _ => "<list>"
  | .dict _ => "<dict>"

/-- Model of `data.get(k)` on a parsed mapping: a key bound to Python `None`
is indistinguishable from an absent key. -/
def pyGet (d : List (String × PyVal)) (k : String) : Option PyVal :=
  match dictGet d k with
  | some .null => none
  | r => r

/-! ## URL splitting (model of `urllib.parse.urlparse` for the shapes the
loader distinguishes: scheme, network location and path) -/

structure UrlParts where
  scheme : String
  netloc : String
  path : String

/-- A valid URL scheme is a letter followed by letters, digits, `+`, `-`, `.`. -/
def validSchemeChars : List Char → Bool
  | [] => false
  | c :: rest =>
    c.isAlpha && (c :: rest).all fun d => d.isAlpha || d.isDigit || d = '+' || d = '-' || d = '.'

def urlParse (source : String) : UrlParts :=
  match splitFirst ':' source.data with
  | some (pre, post) =>
    if validSchemeChars pre then
      match post with
      | '/' :: '/' :: rest =>
        let netloc := rest.takeWhile fun c => c ≠ '/'
        { scheme := lowerStr (String.mk pre), netloc := String.mk netloc,
          path := String.mk (rest.drop netloc.length) }
      | _ =>
        { scheme := lowerStr (String.mk pre), netloc := "", path := String.mk post }
    else { scheme := "", netloc := "", path := source }
  | none => { scheme := "", netloc := "", path := source }

/-- Model of `pathlib.Path(p).suffix.lower()` without the `.lower()` part:
the extension starting at the last dot of the final path component, empty
when there is no dot or the dot is the component's first character. -/
def pathSuffix (p : String) : String :=
  let name := (splitOnChar '/' p.data).getLastD []
  let revTail := name.reverse.takeWhile fun c => c ≠ '.'
  if revTail.length = name.length then ""
  else if name.length - revTail.length - 1 = 0 then ""
  else String.mk ('.' :: revTail.reverse)

/-! ## Spec loader (`core/spec.py`)

`OpenAPISpecError` variants correspond one-to-one to the `raise` sites of
`core/spec.py` (each constructor stands for the message built there). -/

inductive SpecError where
  | unsupportedSource (source : String)
  | fileUrlHostname (url : String)
  | fileUrlNoPath
  | fileNotFound (path : String)
  | fileAccess (path : String)
  | fileRead (path : String)
  | downloadTimeout (source : String)
  | downloadFailed (source : String)
  | invalidYaml
  | invalidJson
  | notObject (format : String)
deriving DecidableEq, Repr

/-- Cache entry of the loader (`_CacheEntry` dataclass). -/
structure CacheEntry where
  spec : PyVal
  mtime : Option Nat := none
  etag : Option String := none
  lastModified : Option String := none

/-- The loader's `_cache` dictionary. -/
def SpecCache : Type := List (String × CacheEntry)

inductive StatFailure where
  | notFound
  | osFailure
deriving DecidableEq

/-- External filesystem primitives used by `_load_path` (`Path.stat` returning
the modification time, and `Path.read_text`). -/
structure FileSystem where
  stat : String → Except StatFailure Nat
  read : String → Except String String

/-- External pathlib/urllib primitives: `Path(p).resolve()` as a canonical
absolute path, `url2pathname`, and `Path.as_uri` on a resolved path. -/
structure PathLib where
  resolve : String → String
  urlToPath : String → String
  asUri : String → String

structure HttpResponse where
  text : String
  etag : Option String := none
  lastModified : Option String := none

inductive HttpFailure where
  | timeout
  | httpFailure
deriving DecidableEq

/-- External HTTP primitive: `httpx.Client.get` followed by
`raise_for_status` (a timeout is distinguished from any other HTTP failure,
mirroring the two `except` clauses). -/
structure HttpClient where
  get : String → Except HttpFailure HttpResponse

/-- External parsing primitives `yaml.safe_load` and `json.loads`; the error
payload is the library message, which the loader discards. -/
structure Parsers where
  yamlLoad : String → Except String PyVal
  jsonLoads : String → Except String PyVal

/-- Model of `OpenAPISpecLoader._validate_dict`. -/
def validateDict (data : PyVal) (sourceFmt : String) : Except SpecError PyVal :=
  match data with
  | .dict _ => .ok data
  | _ => .error (.notObject sourceFmt)

/-- Model of `OpenAPISpecLoader._parse_yaml`. -/
def parseYamlSpec (P : Parsers) (content : String) : Except SpecError PyVal :=
  match P.yamlLoad content with
  | .error _ => .error .invalidYaml
  | .ok d => validateDict d "YAML"

/-- Model of `OpenAPISpecLoader._parse_json`. -/
def parseJsonSpec (P : Parsers) (content : String) : Except SpecError PyVal :=
  match P.jsonLoads content with
  | .error _ => .error .invalidJson
  | .ok d => validateDict d "JSON"

/-- Model of `OpenAPISpecLoader._parse_spec`: dispatch on the extension hint,
otherwise try YAML and fall back to JSON on any `OpenAPISpecError`. -/
def parseSpec (P : Parsers) (content : String) (formatHint : String) :
    Except SpecError PyVal :=
  if formatHint = ".json" then parseJsonSpec P content
  else if formatHint = ".yaml" ∨ formatHint = ".yml" then parseYamlSpec P content
  else
    match parseYamlSpec P content with
    | .ok d => .ok d
    | .error _ => parseJsonSpec P content

/-- Model of `OpenAPISpecLoader._path_from_file_url`; `original` is the source
string the error message reconstructs via `geturl()`. -/
def pathFromFileUrl (pl : PathLib) (u : UrlParts) (original : String) :
    Except SpecError String :=
  if u.netloc ≠ "" ∧ u.netloc ≠ "localhost" then .error (.fileUrlHostname original)
  else
    let p := pl.urlToPath u.path
    if p = "" then .error .fileUrlNoPath else .ok p

/-- Model of `OpenAPISpecLoader._normalize_key`. -/
def normalizeKey (pl : PathLib) (source : String) : Except SpecError String :=
  let u := urlParse source
  let scheme := lowerStr u.scheme
  if scheme = "http" ∨ scheme = "https" then .ok source
  else if scheme = "file" then
    match pathFromFileUrl pl u source with
    | .error e => .error e
    | .ok p => .ok (pl.asUri (pl.resolve p))
  else if scheme = "" then .ok (pl.asUri (pl.resolve source))
  else .ok source

/-- Outcome of one `load` call: the returned document or raised error, the
cache left in the loader, and how many read/fetch primitive invocations the
call performed. -/
structure LoadResult where
  result : Except SpecError PyVal
  cache : SpecCache
  ioCount : Nat

/-- The read-parse-store tail of `_load_path` (executed when there is no
fresh cache entry). -/
def readAndStore (fs : FileSystem) (P : Parsers) (path key : String)
    (mtime : Nat) (st : SpecCache) : LoadResult :=
  match fs.read path with
  | .error _ => ⟨.error (.fileRead path), st, 1⟩
  | .ok content =>
    match parseSpec P content (lowerStr (pathSuffix path)) with
    | .error e => ⟨.error e, st, 1⟩
    | .ok spec => ⟨.ok spec, dictSet st key ⟨spec, some mtime, none, none⟩, 1⟩

/-- Model of `OpenAPISpecLoader._load_path`. -/
def loadPath (fs : FileSystem) (P : Parsers) (path key : String)
    (st : SpecCache) : LoadResult :=
  match fs.stat path with
  | .error .notFound => ⟨.error (.fileNotFound path), st, 0⟩
  | .error .osFailure => ⟨.error (.fileAccess path), st, 0⟩
  | .ok mtime =>
    match dictGet st key with
    | some e =>
      if e.mtime = some mtime then ⟨.ok e.spec, st, 0⟩
      else readAndStore fs P path key mtime st
    | none => readAndStore fs P path key mtime st

/-- Model of `OpenAPISpecLoader._load_http`. -/
def loadHttp (H : HttpClient) (P : Parsers) (source key : String)
    (st : SpecCache) : LoadResult :=
  match dictGet st key with
  | some e => ⟨.ok e.spec, st, 0⟩
  | none =>
    match H.get source with
    | .error .timeout => ⟨.error (.downloadTimeout source), st, 1⟩
    | .error .httpFailure => ⟨.error (.downloadFailed source), st, 1⟩
    | .ok resp =>
      match parseSpec P resp.text (lowerStr (pathSuffix source)) with
      | .error e => ⟨.error e, st, 1⟩
      | .ok spec =>
        ⟨.ok spec, dictSet st key ⟨spec, none, resp.etag, resp.lastModified⟩, 1⟩

/-- Model of `OpenAPISpecLoader.load`. -/
def load (pl : PathLib) (fs : FileSystem) (H : HttpClient) (P : Parsers)
    (source : String) (st : SpecCache) : LoadResult :=
  match normalizeKey pl source with
  | .error e => ⟨.error e, st, 0⟩
  | .ok key =>
    let u := urlParse source
    let scheme := lowerStr u.scheme
    if scheme = "http" ∨ scheme = "https" then loadHttp H P source key st
    else if scheme = "file" then
      match pathFromFileUrl pl u source with
      | .error e => ⟨.error e, st, 0⟩
      | .ok path => loadPath fs P path key st
    else if scheme = "" then loadPath fs P source key st
    else ⟨.error (.unsupportedSource source), st, 0⟩

/-- The local filesystem path a local (bare-path or `file://`) source refers
to, following the same dispatch `load` performs. -/
def localPathOf (pl : PathLib) (source : String) : Option String :=
  let u := urlParse source
  let scheme := lowerStr u.scheme
  if scheme = "file" then
    match pathFromFileUrl pl u source with
    | .error _ => none
    | .ok p => some p
  else if scheme = "" then some source
  else none

/-! ## Runtime configuration (`core/config.py`)

`ConfigError` (and the uncaught builtin `ValueError`s, of which `ConfigError`
is a subclass) are modelled as `Except String` carrying the message text. -/

abbrev PyDict : Type := List (String × PyVal)

abbrev EnvMap : Type := List (String × String)

def envGet (env : EnvMap) (k : String) : Option String := dictGet env k

/-- A present, non-empty (truthy) environment value. -/
def envTruthy (env : EnvMap) (k : String) : Option String :=
  match dictGet env k with
  | some v => if v = "" then none else some v
  | none => none

/-- Model of `_parse_key_value`: split at the first `=` when the string
contains one, otherwise at the first `:`, trimming both sides. -/
def parseKeyValue (raw : String) : Except String (String × String) :=
  match splitFirst '=' raw.data with
  | some (k, v) => .ok (pyStrip (String.mk k), pyStrip (String.mk v))
  | none =>
    match splitFirst ':' raw.data with
    | some (k, v) => .ok (pyStrip (String.mk k), pyStrip (String.mk v))
    | none => .error "Header must be in KEY=VALUE or KEY:VALUE format"

/-- Model of `_parse_bool`. -/
def parseBool (value : String) : Except String Bool :=
  let normalized := lowerStr (pyStrip value)
  if normalized = "1" ∨ normalized = "true" ∨ normalized = "yes" ∨ normalized = "on" then
    .ok true
  else if normalized = "0" ∨ normalized = "false" ∨ normalized = "no" ∨ normalized = "off" then
    .ok false
  else .error ("Cannot parse boolean value: " ++ value)

/-- Model of `_split_key_value_list`. -/
def splitKeyValueList (raw : String) : List String :=
  (splitOnChar ',' raw.data).filterMap fun item =>
    let t := stripChars item
    if t.isEmpty then none else some (String.mk t)

/-- Model of `_parse_proxy_value`: a stripped value starting with a brace is
parsed as a JSON mapping, anything else is kept as an opaque string. -/
def parseProxyValue (P : Parsers) (value : String) : Except String PyVal :=
  let v := pyStrip value
  match v.data with
  | c :: _ =>
    if c = '\x7b' then
      match P.jsonLoads v with
      | .error msg => .error msg
      | .ok loaded =>
        match loaded with
        | .dict xs => .ok (.dict xs)
        | _ => .error "PROXIES configuration must be a mapping object"
    else .ok (.str v)
  | [] => .ok (.str v)

/-- External numeric conversions `float(...)` and `int(...)` on strings. -/
structure PyPrims where
  floatOfStr : String → Except String Rat
  intOfStr : String → Except String Int

/-- Model of `_extract_env_config`. -/
def extractEnvConfig (pr : PyPrims) (P : Parsers) (env : EnvMap) :
    Except String PyDict := do
  let d : PyDict := []
  let d := match (envTruthy env "MCP_PROXY_SPEC").orElse
      (fun _ => envTruthy env "MCP_OPENAPI_SPEC") with
    | some v => dictSet d "openapi_spec" (.str v)
    | none => d
  let d := match envTruthy env "MCP_PROXY_SERVER_NAME" with
    | some v => dictSet d "server_name" (.str v)
    | none => d
  let d := match envTruthy env "MCP_PROXY_BASE_URL" with
    | some v => dictSet d "base_url" (.str v)
    | none => d
  let d ← match envTruthy env "MCP_PROXY_TIMEOUT" with
    | some v => do
      let f ← pr.floatOfStr v
      pure (dictSet d "timeout" (.float f))
    | none => pure d
  let d ← match envTruthy env "MCP_PROXY_RETRIES" with
    | some v => do
      let n ← pr.intOfStr v
      pure (dictSet d "retries" (.int n))
    | none => pure d
  let d ← match envTruthy env "MCP_PROXY_VERIFY_SSL" with
    | some v => do
      let b ← parseBool v
      pure (dictSet d "verify_ssl" (.bool b))
    | none => pure d
  let d ← match envTruthy env "MCP_PROXY_PROXIES" with
    | some v => do
      let pv ← parseProxyValue P v
      pure (dictSet d "proxies" pv)
    | none => pure d
  let d := match envTruthy env "MCP_PROXY_HEADERS" with
    | some v => dictSet d "headers" (.list ((splitKeyValueList v).map PyVal.str))
    | none => d
  let d := match envTruthy env "MCP_PROXY_AUTH_TYPE" with
    | some v => dictSet d "auth_type" (.str v)
    | none => d
  let d := match envTruthy env "MCP_PROXY_AUTH_TOKEN" with
    | some v => dictSet d "auth_token" (.str v)
    | none => d
  let d := match envTruthy env "MCP_PROXY_AUTH_USERNAME" with
    | some v => dictSet d "auth_username" (.str v)
    | none => d
  let d := match envTruthy env "MCP_PROXY_AUTH_PASSWORD" with
    | some v => dictSet d "auth_password" (.str v)
    | none => d
  let d := match envTruthy env "MCP_PROXY_AUTH_HEADERS" with
    | some v => dictSet d "auth_headers" (.list ((splitKeyValueList v).map PyVal.str))
    | none => d
  let d := match envTruthy env "MCP_PROXY_AUTH_KEY_NAME" with
    | some v => dictSet d "auth_key_name" (.str v)
    | none => d
  let d := match envTruthy env "MCP_PROXY_AUTH_KEY_VALUE" with
    | some v => dictSet d "auth_key_value" (.str v)
    | none => d
  let d := match envTruthy env "MCP_PROXY_AUTH_KEY_LOCATION" with
    | some v => dictSet d "auth_key_location" (.str v)
    | none => d
  pure d

/-- The argparse namespace produced by `build_arg_parser` (`None` meaning the
flag was not supplied; the two repeatable header flags default to `[]`). -/
structure CliArgs where
  openapi_spec : Option String := none
  server_name : Option String := none
  base_url : Option String := none
  timeout : Option Rat := none
  verify_ssl : Option Bool := none
  retries : Option Int := none
  proxies : Option String := none
  auth_type : Option String := none
  auth_token : Option String := none
  auth_username : Option String := none
  auth_password : Option String := none
  auth_key_name : Option String := none
  auth_key_value : Option String := none
  auth_key_location : Option String := none
  headers : List String := []
  auth_headers : List String := []

/-- Model of `_extract_cli_config`: keep exactly the attributes that are not
`None`, in the source's tuple order, then the two header lists when
non-empty. -/
def extractCliConfig (args : CliArgs) : PyDict :=
  let d : PyDict := []
  let d := match args.openapi_spec with
    | some v => dictSet d "openapi_spec" (.str v) | none => d
  let d := match args.server_name with
    | some v => dictSet d "server_name" (.str v) | none => d
  let d := match args.base_url with
    | some v => dictSet d "base_url" (.str v) | none => d
  let d := match args.timeout with
    | some v => dictSet d "timeout" (.float v) | none => d
  let d := match args.verify_ssl with
    | some v => dictSet d "verify_ssl" (.bool v) | none => d
  let d := match args.retries with
    | some v => dictSet d "retries" (.int v) | none => d
  let d := match args.proxies with
    | some v => dictSet d "proxies" (.str v) | none => d
  let d := match args.auth_type with
    | some v => dictSet d "auth_type" (.str v) | none => d
  let d := match args.auth_token with
    | some v => dictSet d "auth_token" (.str v) | none => d
  let d := match args.auth_username with
    | some v => dictSet d "auth_username" (.str v) | none => d
  let d := match args.auth_password with
    | some v => dictSet d "auth_password" (.str v) | none => d
  let d := match args.auth_key_name with
    | some v => dictSet d "auth_key_name" (.str v) | none => d
  let d := match args.auth_key_value with
    | some v => dictSet d "auth_key_value" (.str v) | none => d
  let d := match args.auth_key_location with
    | some v => dictSet d "auth_key_location" (.str v) | none => d
  let d := if args.headers.isEmpty then d
    else dictSet d "headers" (.list (args.headers.map PyVal.str))
  let d := if args.auth_headers.isEmpty then d
    else dictSet d "auth_headers" (.list (args.auth_headers.map PyVal.str))
  d

/-- The merge chain of `load_runtime_config` (lines 135-139): an empty dict
updated with the config-file data, then the environment data, then the CLI
data. -/
def mergeLayers (configData envData cliData : PyDict) : PyDict :=
  dictUpdate (dictUpdate (dictUpdate [] configData) envData) cliData

def noSourceMsg : String :=
  "No OpenAPI specification source provided. Please specify via --openapi-spec parameter, MCP_PROXY_SPEC/MCP_OPENAPI_SPEC environment variable, or configuration file."

def resolveOpenapiFallback (env : EnvMap) : Except String String :=
  match envTruthy env "MCP_OPENAPI_SPEC" with
  | some v => .ok v
  | none => .error noSourceMsg

/-- Model of `_resolve_openapi_source`: a truthy merged `openapi_spec` wins,
then the truthy legacy environment variable, otherwise a `ConfigError`. -/
def resolveOpenapiSource (merged : PyDict) (env : EnvMap) : Except String String :=
  match dictGet merged "openapi_spec" with
  | some v => if v.truthy then .ok (pyStr v) else resolveOpenapiFallback env
  | none => resolveOpenapiFallback env

/-- Iterating a Python value (as `for raw in headers` does): lists yield their
elements, strings their one-character substrings, mappings their keys. -/
def pyIterStrs : PyVal → Except String (List PyVal)
  | .list xs => .ok xs
  | .str s => .ok (s.data.map fun c => .str (String.mk [c]))
  | .dict xs => .ok (xs.map fun kv => .str kv.1)
  | _ => .error "TypeError: object is not iterable"

/-- `_parse_key_value` applied to an iterated element, which must be a
string. -/
def parseKeyValuePy (v : PyVal) : Except String (String × String) :=
  match v with
  | .str raw => parseKeyValue raw
  | _ => .error "TypeError: membership test requires a string"

/-- One step of `_merge_headers`: fold a source's `headers` entry (skipped
when absent or falsy) into the accumulated mapping. -/
def mergeHeadersFrom (acc : List (String × String)) (src : PyDict) :
    Except String (List (String × String)) :=
  match dictGet src "headers" with
  | none => .ok acc
  | some hv =>
    if hv.truthy then do
      let items ← pyIterStrs hv
      items.foldlM (fun m raw => do
        let kv ← parseKeyValuePy raw
        pure (dictSet m kv.1 kv.2)) acc
    else .ok acc

/-- Model of `_merge_headers`. -/
def mergeHeaders (sources : List PyDict) : Except String (List (String × String)) :=
  sources.foldlM mergeHeadersFrom []

/-- The `AuthConfig` dataclass. -/
structure AuthConfig where
  scheme : String := "none"
  token : Option String := none
  username : Option String := none
  password : Option String := none
  header_name : Option String := none
  header_value : Option String := none
  api_key_name : Option String := none
  api_key_value : Option String := none
  api_key_location : String := "header"
  extra_headers : List (String × String) := []

/-- Model of `_build_auth_config`. -/
def buildAuthConfig (data : PyDict) : Except String AuthConfig := do
  let scheme := lowerStr (pyStr ((dictGet data "auth_type").getD (.str "none")))
  let config : AuthConfig := { scheme := scheme }
  let config ←
    if scheme = "bearer" then
      match dictGet data "auth_token" with
      | some v =>
        if v.truthy then pure { config with token := some (pyStr v) }
        else .error "Bearer authentication requires auth_token"
      | none => .error "Bearer authentication requires auth_token"
    else if scheme = "basic" then
      match pyGet data "auth_username", pyGet data "auth_password" with
      | some u, some p =>
        pure { config with username := some (pyStr u), password := some (pyStr p) }
      | _, _ => .error "Basic authentication requires username and password"
    else if scheme = "header" then
      match dictGet data "auth_headers" with
      | some hv =>
        if hv.truthy then do
          let items ← pyIterStrs hv
          items.foldlM (fun cfg raw => do
            let kv ← parseKeyValuePy raw
            match cfg.header_name with
            | none => pure { cfg with header_name := some kv.1, header_value := some kv.2 }
            | some _ => pure { cfg with extra_headers := dictSet cfg.extra_headers kv.1 kv.2 })
            config
        else .error "Header authentication requires at least one --auth-header"
      | none => .error "Header authentication requires at least one --auth-header"
    else if scheme = "api-key" then
      match pyGet data "auth_key_value" with
      | none => .error "API Key authentication requires auth_key_value"
      | some v =>
        let name := match dictGet data "auth_key_name" with
          | some nv => if nv.truthy then pyStr nv else "X-API-Key"
          | none => "X-API-Key"
        let location := match dictGet data "auth_key_location" with
          | some lv => if lv.truthy then pyStr lv else "header"
          | none => "header"
        if location = "header" ∨ location = "query" ∨ location = "cookie" then
          pure { config with api_key_value := some (pyStr v), api_key_name := some name,
                             api_key_location := location }
        else .error "API Key location must be one of header/query/cookie"
    else
      pure { config with scheme := if scheme = "" ∨ scheme = "none" then "none" else scheme }
  let extraRaw := match dictGet data "auth_headers" with
    | some v => if v.truthy then v else .list []
    | none => .list []
  let items ← pyIterStrs extraRaw
  items.foldlM (fun cfg raw => do
    let kv ← parseKeyValuePy raw
    pure { cfg with extra_headers := dictSetDefault cfg.extra_headers kv.1 kv.2 }) config

/-- The `ClientConfig` dataclass (`verify_ssl` is `bool | str`, kept as a raw
value). -/
structure ClientConfig where
  timeout : Rat := 30
  verify_ssl : PyVal := .bool true
  retries : Int := 0
  proxies : Option PyVal := none

/-- Model of `float(v)` on a configuration value. -/
def pyFloatVal (pr : PyPrims) : PyVal → Except String Rat
  | .float r => .ok r
  | .int i => .ok (i : Rat)
  | .bool b => .ok (if b then 1 else 0)
  | .str s => pr.floatOfStr s
  | _ => .error "TypeError: float() argument"

/-- Model of `int(v)` on a configuration value (truncation toward zero). -/
def pyIntVal (pr : PyPrims) : PyVal → Except String Int
  | .int i => .ok i
  | .float r => .ok (if 0 ≤ r then r.floor else r.ceil)
  | .bool b => .ok (if b then 1 else 0)
  | .str s => pr.intOfStr s
  | _ => .error "TypeError: int() argument"

/-- Model of `_build_client_config`. -/
def buildClientConfig (pr : PyPrims) (data : PyDict) : Except String ClientConfig := do
  let client : ClientConfig := {}
  let client ← match dictGet data "timeout" with
    | some .null => pure client
    | some v => do
      let f ← pyFloatVal pr v
      pure { client with timeout := f }
    | none => pure client
  let client := match dictGet data "verify_ssl" with
    | some .null => client
    | some v => { client with verify_ssl := v }
    | none => client
  let client ← match dictGet data "retries" with
    | some .null => pure client
    | some v => do
      let n ← pyIntVal pr v
      pure { client with retries := n }
    | none => pure client
  let client := match dictGet data "proxies" with
    | some .null => client
    | some v => { client with proxies := some v }
    | none => client
  pure client

def defaultServerName : String := "OpenAPI MCP Proxy"

/-- The `RuntimeConfig` dataclass (`raw_sources`, kept only for diagnostics,
is not modelled; `base_url` is kept as an optional string, the shape the
extractors produce). -/
structure RuntimeConfig where
  openapi_source : String
  server_name : String := defaultServerName
  base_url : Option String := none
  headers : List (String × String) := []
  auth : AuthConfig := {}
  client : ClientConfig := {}

/-- Model of `load_runtime_config` after argparse: the parsed
configuration-file mapping is taken as a parameter (`[]` when no config file
is named), since reading it is external I/O. -/
def loadRuntimeConfig (pr : PyPrims) (P : Parsers) (configData : PyDict)
    (env : EnvMap) (args : CliArgs) : Except String RuntimeConfig := do
  let envData ← extractEnvConfig pr P env
  let cliData := extractCliConfig args
  let merged := mergeLayers configData envData cliData
  let openapiSource ← resolveOpenapiSource merged env
  let serverName := match dictGet merged "server_name" with
    | some v => pyStr v
    | none => defaultServerName
  let baseUrl := (pyGet merged "base_url").map pyStr
  let headers ← mergeHeaders [configData, envData, cliData]
  let auth ← buildAuthConfig merged
  let client ← buildClientConfig pr merged
  pure { openapi_source := openapiSource, server_name := serverName,
         base_url := baseUrl, headers := headers, auth := auth, client := client }

/-! ## Authentication strategy resolution (`core/auth.py`) -/

/-- The four views a resolved strategy exposes; `httpx.BasicAuth` is modelled
as the username/password pair it wraps. -/
structure AuthStrategy where
  headers : List (String × String) := []
  auth : Option (String × String) := none
  query_params : List (String × String) := []
  cookies : List (String × String) := []

/-- The effective api-key name `create_auth_strategy` uses:
`config.api_key_name or "X-API-Key"`. -/
def apiKeyName (config : AuthConfig) : String :=
  match config.api_key_name with
  | some n => if n = "" then "X-API-Key" else n
  | none => "X-API-Key"

/-- The effective api-key location `create_auth_strategy` uses:
`(config.api_key_location or "header").lower()`. -/
def apiKeyLocation (config : AuthConfig) : String :=
  lowerStr (if config.api_key_location = "" then "header" else config.api_key_location)

/-- Model of `create_auth_strategy` (the `ValueError` messages are carried as
strings). -/
def createAuthStrategy (config : AuthConfig) : Except String AuthStrategy := do
  let scheme := lowerStr (if config.scheme = "" then "none" else config.scheme)
  let strategy : AuthStrategy := {}
  let strategy ←
    if scheme = "none" ∨ scheme = "" then pure strategy
    else if scheme = "bearer" then
      match config.token with
      | some t =>
        if t = "" then .error "Bearer authentication requires a token"
        else pure { strategy with
          headers := dictSet strategy.headers "Authorization" ("Bearer " ++ t) }
      | none => .error "Bearer authentication requires a token"
    else if scheme = "basic" then
      match config.username, config.password with
      | some u, some p => pure { strategy with auth := some (u, p) }
      | _, _ => .error "Basic authentication requires username/password"
    else if scheme = "header" then
      match config.header_name, config.header_value with
      | some n, some v => pure { strategy with headers := dictSet strategy.headers n v }
      | _, _ => .error "Header authentication requires name and value"
    else if scheme = "api-key" then
      match config.api_key_value with
      | none => .error "API key authentication requires a key value"
      | some v =>
        let keyName := apiKeyName config
        let location := apiKeyLocation config
        if location = "header" then
          pure { strategy with headers := dictSet strategy.headers keyName v }
        else if location = "query" then
          pure { strategy with query_params := dictSet strategy.query_params keyName v }
        else if location = "cookie" then
          pure { strategy with cookies := dictSet strategy.cookies keyName v }
        else .error "Unsupported API key location; expected header/query/cookie"
    else .error ("Unsupported authentication scheme: " ++ config.scheme)
  pure { strategy with headers := dictUpdate strategy.headers config.extra_headers }

/-! ## HTTP client factory (`core/client.py`) -/

/-- The scan of `derive_base_url` over the `servers` entries: the first entry
that is a mapping whose `url` is a string with non-blank content yields that
url, stripped. -/
def firstServerUrl : List PyVal → Option String
  | [] => none
  | candidate :: rest =>
    match candidate with
    | .dict d =>
      match dictGet d "url" with
      | some (.str u) => if pyStrip u ≠ "" then some (pyStrip u) else firstServerUrl rest
      | _ => firstServerUrl rest
    | _ => firstServerUrl rest

/-- Model of `derive_base_url`. A string `servers` value is a Python
`Sequence` too and is iterated character by character (each a one-character
string, never a mapping). -/
def deriveBaseUrl (spec : PyVal) : Option String :=
  match spec with
  | .dict xs =>
    match dictGet xs "servers" with
    | some (.list servers) => firstServerUrl servers
    | some (.str s) => firstServerUrl (s.data.map fun c => .str (String.mk [c]))
    | _ => none
  | _ => none

/-- The effective base URL `create_http_client` computes (line 39):
`config.base_url or derive_base_url(spec)`; a falsy result leaves the client
without a base URL. -/
def effectiveBaseUrl (config : RuntimeConfig) (spec : PyVal) : Option String :=
  match config.base_url with
  | some b => if b ≠ "" then some b else deriveBaseUrl spec
  | none => deriveBaseUrl spec

/-- The list of `servers` entries of a document, when `servers` is a list. -/
def serversOf (spec : PyVal) : List PyVal :=
  match spec with
  | .dict xs =>
    match dictGet xs "servers" with
    | some (.list servers) => servers
    | _ => []
  | _ => []

/-- Written from the specification's words, for comparison with the code: the
explicit `base_url` when set, otherwise the first entry of the document's
`servers` list (in list order) whose `url` field is a non-blank string
(taken stripped of surrounding whitespace), otherwise no base URL. -/
def claimedBaseUrl (config : RuntimeConfig) (spec : PyVal) : Option String :=
  if config.base_url.getD "" ≠ "" then config.base_url
  else
    ((serversOf spec).filterMap fun entry =>
      match entry with
      | .dict d =>
        match dictGet d "url" with
        | some (.str u) => if pyStrip u = "" then none else some (pyStrip u)
        | _ => none
      | _ => none).head?

/-! ## Proxy registry (`server.py` and `core/server.py`) -/

/-- The `ProxyRegistry` dataclass: the configuration it was created for and
the lazily memoised proxy instance. The proxy type and the assembly step
`create_proxy` (spec load + client build + framework constructor) are
parameters. -/
structure ProxyRegistryState (Proxy : Type) where
  config : RuntimeConfig
  proxyInst : Option Proxy := none

/-- Model of `ProxyRegistry.get`. -/
def registryGet {Proxy : Type} (build : RuntimeConfig → Except String Proxy)
    (reg : ProxyRegistryState Proxy) :
    Except String (Proxy × ProxyRegistryState Proxy) :=
  match reg.proxyInst with
  | some p => .ok (p, reg)
  | none =>
    match build reg.config with
    | .error e => .error e
    | .ok p => .ok (p, { reg with proxyInst := some p })

def differentSourceMsg : String :=
  "MCP proxy already created for a different OpenAPI specification; restart the process to switch"

def notInitialisedMsg : String :=
  "proxy instance not initialised; a RuntimeConfig is required first"

/-- Model of `get_proxy_instance` acting on the module-level `_registry`
state; the two `RuntimeError` messages are rendered by the two fixed strings
above. On success the new registry state is returned; an error leaves the
module state as it was. -/
def getProxyInstance {Proxy : Type} (build : RuntimeConfig → Except String Proxy)
    (registry : Option (ProxyRegistryState Proxy)) (config : Option RuntimeConfig) :
    Except String (Proxy × ProxyRegistryState Proxy) :=
  match registry with
  | none =>
    match config with
    | none => .error notInitialisedMsg
    | some c => registryGet build { config := c }
  | some reg =>
    match config with
    | some c =>
      if c.openapi_source ≠ reg.config.openapi_source then .error differentSourceMsg
      else registryGet build reg
    | none => registryGet build reg

/-! ## Helper lemmas -/

theorem toNat_ofNat_valid (n : Nat) (h : n.isValidChar) : (Char.ofNat n).toNat = n := by
  rw [Char.ofNat, dif_pos h]
  rfl

theorem lowerChar_idem (c : Char) : lowerChar (lowerChar c) = lowerChar c := by
  unfold lowerChar
  by_cases h : 65 ≤ c.toNat ∧ c.toNat ≤ 90
  · have hval : (c.toNat + 32).isValidChar := Or.inl (by omega)
    have htn : (Char.ofNat (c.toNat + 32)).toNat = c.toNat + 32 := toNat_ofNat_valid _ hval
    rw [if_pos h, htn, if_neg (by omega)]
  · rw [if_neg h, if_neg h]

theorem lowerStr_idem (s : String) : lowerStr (lowerStr s) = lowerStr s := by
  unfold lowerStr
  congr 1
  rw [List.map_map]
  exact List.map_congr_left fun c _ => lowerChar_idem c

theorem dictGet_dictSet_self {α : Type} (d : List (String × α)) (k : String) (v : α) :
    dictGet (dictSet d k v) k = some v := by
  induction d with
  | nil => simp [dictSet, dictGet]
  | cons kv rest ih =>
    obtain ⟨k', v'⟩ := kv
    by_cases h : k' = k
    · simp [dictSet, dictGet, h]
    · simp [dictSet, dictGet, h, ih]

theorem dictGet_dictSet_ne {α : Type} (d : List (String × α)) (k k' : String) (v : α)
    (h : k ≠ k') : dictGet (dictSet d k v) k' = dictGet d k' := by
  induction d with
  | nil => simp [dictSet, dictGet, h]
  | cons kv rest ih =>
    obtain ⟨k0, v0⟩ := kv
    by_cases h0 : k0 = k
    · subst h0
      simp [dictSet, dictGet, h]
    · simp [dictSet, dictGet, h0, ih]

theorem dictGet_eq_none_of_not_mem {α : Type} {d : List (String × α)} {k : String}
    (h : k ∉ d.map Prod.fst) : dictGet d k = none := by
  induction d with
  | nil => simp [dictGet]
  | cons kv rest ih =>
    simp only [List.map_cons, List.mem_cons] at h
    push_neg at h
    have h1 : ¬kv.1 = k := fun hk => h.1 hk.symm
    simp [dictGet, h1, ih h.2]

theorem dictGet_dictUpdate {α : Type} (d o : List (String × α)) (k : String)
    (ho : (o.map Prod.fst).Nodup) :
    dictGet (dictUpdate d o) k = (dictGet o k <|> dictGet d k) := by
  induction o generalizing d with
  | nil => simp [dictUpdate, dictGet]
  | cons kv rest ih =>
    obtain ⟨k0, v0⟩ := kv
    simp only [List.map_cons, List.nodup_cons] at ho
    have step : dictUpdate d ((k0, v0) :: rest) = dictUpdate (dictSet d k0 v0) rest := rfl
    rw [step, ih _ ho.2]
    by_cases h : k0 = k
    · subst h
      rw [dictGet_eq_none_of_not_mem ho.1, dictGet_dictSet_self]
      simp [dictGet]
    · rw [dictGet_dictSet_ne _ _ _ _ h]
      simp [dictGet, h]


/-- The scheme the loader dispatches on: `urlparse(source).scheme.lower()`. -/
def sourceScheme (source : String) : String := lowerStr (urlParse source).scheme

theorem normalizeKey_http (pl : PathLib) (source : String)
    (h : sourceScheme source = "http" ∨ sourceScheme source = "https") :
    normalizeKey pl source = .ok source := by
  unfold sourceScheme at h
  simp only [normalizeKey]
  rw [if_pos h]

theorem normalizeKey_bare (pl : PathLib) (source : String)
    (h : sourceScheme source = "") :
    normalizeKey pl source = .ok (pl.asUri (pl.resolve source)) := by
  unfold sourceScheme at h
  simp only [normalizeKey]
  rw [h]
  simp

theorem normalizeKey_file (pl : PathLib) (source p : String)
    (h : sourceScheme source = "file")
    (hp : pathFromFileUrl pl (urlParse source) source = .ok p) :
    normalizeKey pl source = .ok (pl.asUri (pl.resolve p)) := by
  unfold sourceScheme at h
  simp only [normalizeKey]
  rw [h]
  simp [hp]

theorem load_dispatch_http (pl : PathLib) (fs : FileSystem) (H : HttpClient)
    (P : Parsers) (source : String) (st : SpecCache)
    (h : sourceScheme source = "http" ∨ sourceScheme source = "https") :
    load pl fs H P source st = loadHttp H P source source st := by
  have hk := normalizeKey_http pl source h
  unfold sourceScheme at h
  simp only [load, hk]
  rw [if_pos h]

theorem load_dispatch_bare (pl : PathLib) (fs : FileSystem) (H : HttpClient)
    (P : Parsers) (source : String) (st : SpecCache)
    (h : sourceScheme source = "") :
    load pl fs H P source st =
      loadPath fs P source (pl.asUri (pl.resolve source)) st := by
  have hk := normalizeKey_bare pl source h
  unfold sourceScheme at h
  simp only [load, hk]
  rw [h]
  simp

theorem load_dispatch_file (pl : PathLib) (fs : FileSystem) (H : HttpClient)
    (P : Parsers) (source p : String) (st : SpecCache)
    (h : sourceScheme source = "file")
    (hp : pathFromFileUrl pl (urlParse source) source = .ok p) :
    load pl fs H P source st = loadPath fs P p (pl.asUri (pl.resolve p)) st := by
  have hk := normalizeKey_file pl source p h hp
  unfold sourceScheme at h
  simp only [load, hk]
  rw [h]
  simp [hp]

theorem loadPath_hit (fs : FileSystem) (P : Parsers) (path key : String)
    (st : SpecCache) (m : Nat) (e : CacheEntry)
    (hstat : fs.stat path = .ok m) (hget : dictGet st key = some e)
    (hmt : e.mtime = some m) :
    loadPath fs P path key st = ⟨.ok e.spec, st, 0⟩ := by
  simp only [loadPath, hstat, hget]
  rw [if_pos hmt]

theorem loadPath_stale (fs : FileSystem) (P : Parsers) (path key : String)
    (st : SpecCache) (m : Nat) (e : CacheEntry) (content : String) (d : PyVal)
    (hstat : fs.stat path = .ok m) (hget : dictGet st key = some e)
    (hmt : e.mtime ≠ some m) (hread : fs.read path = .ok content)
    (hparse : parseSpec P content (lowerStr (pathSuffix path)) = .ok d) :
    loadPath fs P path key st = ⟨.ok d, dictSet st key ⟨d, some m, none, none⟩, 1⟩ := by
  simp only [loadPath, hstat, hget]
  rw [if_neg hmt]
  simp only [readAndStore, hread, hparse]

theorem loadPath_ok_post (fs : FileSystem) (P : Parsers) (path key : String)
    (st : SpecCache) (d : PyVal) (c : SpecCache) (n : Nat)
    (h : loadPath fs P path key st = ⟨.ok d, c, n⟩) :
    ∃ m e, fs.stat path = .ok m ∧ dictGet c key = some e ∧
      e.spec = d ∧ e.mtime = some m := by
  rcases hstat : fs.stat path with f | m
  · rcases f <;> simp [loadPath, hstat] at h
  · have hstore : ∀ st0, readAndStore fs P path key m st0 = ⟨.ok d, c, n⟩ →
        ∃ e, dictGet c key = some e ∧ e.spec = d ∧ e.mtime = some m := by
      intro st0 hr
      rcases hread : fs.read path with msg | content
      · simp [readAndStore, hread] at hr
      · simp only [readAndStore, hread] at hr
        rcases hparse : parseSpec P content (lowerStr (pathSuffix path)) with err | spec
        · rw [hparse] at hr
          simp at hr
        · rw [hparse] at hr
          obtain ⟨h1, h2, _⟩ := LoadResult.mk.injEq .. ▸ hr
          refine ⟨⟨spec, some m, none, none⟩, ?_, ?_, rfl⟩
          · rw [← h2]
            exact dictGet_dictSet_self st0 key _
          · exact (Except.ok.injEq .. ▸ h1)
    rcases hget : dictGet st key with _ | e
    · simp only [loadPath, hstat, hget] at h
      obtain ⟨e, he⟩ := hstore st h
      exact ⟨m, e, rfl, he⟩
    · simp only [loadPath, hstat, hget] at h
      by_cases hmt : e.mtime = some m
      · rw [if_pos hmt] at h
        obtain ⟨h1, h2, _⟩ := LoadResult.mk.injEq .. ▸ h
        refine ⟨m, e, rfl, ?_, ?_, hmt⟩
        · rw [← h2]
          exact hget
        · exact (Except.ok.injEq .. ▸ h1)
      · rw [if_neg hmt] at h
        obtain ⟨e', he'⟩ := hstore st h
        exact ⟨m, e', rfl, he'⟩

theorem loadHttp_hit (H : HttpClient) (P : Parsers) (source key : String)
    (st : SpecCache) (e : CacheEntry) (hget : dictGet st key = some e) :
    loadHttp H P source key st = ⟨.ok e.spec, st, 0⟩ := by
  simp [loadHttp, hget]

theorem loadHttp_ok_post (H : HttpClient) (P : Parsers) (source key : String)
    (st : SpecCache) (d : PyVal) (c : SpecCache) (n : Nat)
    (h : loadHttp H P source key st = ⟨.ok d, c, n⟩) :
    ∃ e, dictGet c key = some e ∧ e.spec = d := by
  rcases hget : dictGet st key with _ | e
  · simp only [loadHttp, hget] at h
    rcases hresp : H.get source with f | resp
    · rcases f <;> simp [hresp] at h
    · rw [hresp] at h
      rcases hparse : parseSpec P resp.text (lowerStr (pathSuffix source)) with err | spec
      · simp [hparse] at h
      · simp only [hparse] at h
        obtain ⟨h1, h2, _⟩ := LoadResult.mk.injEq .. ▸ h
        refine ⟨⟨spec, none, resp.etag, resp.lastModified⟩, ?_, ?_⟩
        · rw [← h2]
          exact dictGet_dictSet_self st key _
        · exact (Except.ok.injEq .. ▸ h1)
  · simp only [loadHttp, hget] at h
    obtain ⟨h1, h2, _⟩ := LoadResult.mk.injEq .. ▸ h
    refine ⟨e, ?_, Except.ok.injEq .. ▸ h1⟩
    rw [← h2]
    exact hget

theorem readAndStore_error_cache (fs : FileSystem) (P : Parsers)
    (path key : String) (m : Nat) (st : SpecCache) (err : SpecError)
    (h : (readAndStore fs P path key m st).result = .error err) :
    (readAndStore fs P path key m st).cache = st := by
  rcases hread : fs.read path with msg | content
  · simp [readAndStore, hread]
  · rcases hparse : parseSpec P content (lowerStr (pathSuffix path)) with e | spec
    · simp [readAndStore, hread, hparse]
    · simp [readAndStore, hread, hparse] at h

theorem loadPath_error_cache (fs : FileSystem) (P : Parsers) (path key : String)
    (st : SpecCache) (err : SpecError)
    (h : (loadPath fs P path key st).result = .error err) :
    (loadPath fs P path key st).cache = st := by
  rcases hstat : fs.stat path with f | m
  · rcases f <;> simp [loadPath, hstat]
  · rcases hget : dictGet st key with _ | e
    · simp only [loadPath, hstat, hget] at h ⊢
      exact readAndStore_error_cache fs P path key m st err h
    · simp only [loadPath, hstat, hget] at h ⊢
      by_cases hmt : e.mtime = some m
      · rw [if_pos hmt] at h
        simp at h
      · rw [if_neg hmt] at h ⊢
        exact readAndStore_error_cache fs P path key m st err h

theorem loadHttp_error_cache (H : HttpClient) (P : Parsers) (source key : String)
    (st : SpecCache) (err : SpecError)
    (h : (loadHttp H P source key st).result = .error err) :
    (loadHttp H P source key st).cache = st := by
  rcases hget : dictGet st key with _ | e
  · rcases hresp : H.get source with f | resp
    · rcases f <;> simp [loadHttp, hget, hresp]
    · rcases hparse : parseSpec P resp.text (lowerStr (pathSuffix source)) with e' | spec
      · simp [loadHttp, hget, hresp, hparse]
      · simp [loadHttp, hget, hresp, hparse] at h
  · simp [loadHttp, hget] at h

theorem load_file_urlerr (pl : PathLib) (fs : FileSystem) (H : HttpClient)
    (P : Parsers) (source : String) (st : SpecCache) (e : SpecError)
    (h : sourceScheme source = "file")
    (hp : pathFromFileUrl pl (urlParse source) source = .error e) :
    load pl fs H P source st = ⟨.error e, st, 0⟩ := by
  unfold sourceScheme at h
  have hk : normalizeKey pl source = .error e := by
    simp only [normalizeKey]
    rw [h]
    simp [hp]
  simp [load, hk]

/-- Claim C10: whenever `load` raises a `SpecError` — unsupported scheme, bad
file URL, stat or read failure, HTTP timeout or HTTP error, parse failure, or
a non-mapping top level — the loader's cache is left exactly as it was before
the call; in particular a previously cached entry for the failing source's key
is neither removed nor replaced. -/
theorem c10_error_leaves_cache_unchanged (pl : PathLib) (fs : FileSystem)
    (H : HttpClient) (P : Parsers) (source : String) (st : SpecCache)
    (err : SpecError) (h : (load pl fs H P source st).result = .error err) :
    (load pl fs H P source st).cache = st := by
  rcases hnk : normalizeKey pl source with e | key
  · simp [load, hnk]
  · simp only [load, hnk] at h ⊢
    by_cases h1 : lowerStr (urlParse source).scheme = "http" ∨
        lowerStr (urlParse source).scheme = "https"
    · rw [if_pos h1] at h ⊢
      exact loadHttp_error_cache H P source key st err h
    · rw [if_neg h1] at h ⊢
      by_cases h2 : lowerStr (urlParse source).scheme = "file"
      · rw [if_pos h2] at h ⊢
        rcases hp : pathFromFileUrl pl (urlParse source) source with e' | p
        · simp [hp]
        · simp only [hp] at h ⊢
          exact loadPath_error_cache fs P p key st err h
      · rw [if_neg h2] at h ⊢
        by_cases h3 : lowerStr (urlParse source).scheme = ""
        · rw [if_pos h3] at h ⊢
          exact loadPath_error_cache fs P source key st err h
        · rw [if_neg h3] at h ⊢

theorem localPathOf_bare (pl : PathLib) (source : String)
    (h : sourceScheme source = "") : localPathOf pl source = some source := by
  unfold sourceScheme at h
  simp only [localPathOf]
  rw [h]
  simp

theorem localPathOf_file (pl : PathLib) (source p : String)
    (h : sourceScheme source = "file")
    (hp : pathFromFileUrl pl (urlParse source) source = .ok p) :
    localPathOf pl source = some p := by
  unfold sourceScheme at h
  simp only [localPathOf]
  rw [h]
  simp [hp]

theorem normalizeKey_of_localPath (pl : PathLib) (s p : String)
    (h : localPathOf pl s = some p) :
    normalizeKey pl s = .ok (pl.asUri (pl.resolve p)) := by
  by_cases hf : lowerStr (urlParse s).scheme = "file"
  · simp only [localPathOf] at h
    rw [hf] at h
    simp only [reduceIte] at h
    rcases hp : pathFromFileUrl pl (urlParse s) s with e | p'
    · rw [hp] at h
      simp at h
    · rw [hp] at h
      simp only [Option.some.injEq] at h
      rw [← h]
      exact normalizeKey_file pl s p' hf hp
  · by_cases hb : lowerStr (urlParse s).scheme = ""
    · simp only [localPathOf] at h
      rw [hb, if_neg (show ¬("" : String) = "file" by decide)] at h
      simp only [ite_true, Option.some.injEq] at h
      rw [← h]
      exact normalizeKey_bare pl s hb
    · simp only [localPathOf] at h
      rw [if_neg hf, if_neg hb] at h
      simp at h

/-- Claim C3: any two string spellings of the same local file (relative path,
absolute path, or equivalent file URL) — same file meaning that the paths
they refer to canonicalize to the same absolute path — normalize to the same
cache key, namely the canonical absolute-path URI; loads through either
spelling therefore address one cache entry. -/
theorem c3_same_file_same_cache_key (pl : PathLib) (s1 s2 p1 p2 : String)
    (h1 : localPathOf pl s1 = some p1) (h2 : localPathOf pl s2 = some p2)
    (hres : pl.resolve p1 = pl.resolve p2) :
    normalizeKey pl s1 = .ok (pl.asUri (pl.resolve p1)) ∧
    normalizeKey pl s1 = normalizeKey pl s2 := by
  refine ⟨normalizeKey_of_localPath pl s1 p1 h1, ?_⟩
  rw [normalizeKey_of_localPath pl s1 p1 h1, normalizeKey_of_localPath pl s2 p2 h2, hres]

/-- Claim C1: for a local (bare-path or file URL) source whose document is
cached, a second load with the file's modification time unchanged returns the
cached document (equal to the first result) without re-reading the file and
without touching the cache; a second load after the modification time changed
re-reads and re-parses the file, returns the new content and replaces the
cache entry. -/
theorem c1_local_cache_behaviour (pl : PathLib) (fs fs' : FileSystem)
    (H : HttpClient) (P : Parsers) (source : String) (st : SpecCache)
    (d : PyVal) (c : SpecCache) (n : Nat)
    (hlocal : sourceScheme source = "" ∨ sourceScheme source = "file")
    (h1 : load pl fs H P source st = ⟨.ok d, c, n⟩) :
    load pl fs H P source c = ⟨.ok d, c, 0⟩ ∧
    ∀ path key m m' content' d',
      localPathOf pl source = some path →
      normalizeKey pl source = .ok key →
      fs.stat path = .ok m → fs'.stat path = .ok m' → m' ≠ m →
      fs'.read path = .ok content' →
      parseSpec P content' (lowerStr (pathSuffix path)) = .ok d' →
      load pl fs' H P source c =
        ⟨.ok d', dictSet c key ⟨d', some m', none, none⟩, 1⟩ := by
  obtain ⟨path0, hpath0, hdisp⟩ :
      ∃ path0, localPathOf pl source = some path0 ∧
        ∀ (FS : FileSystem) (st' : SpecCache),
          load pl FS H P source st' =
            loadPath FS P path0 (pl.asUri (pl.resolve path0)) st' := by
    rcases hlocal with hb | hf
    · exact ⟨source, localPathOf_bare pl source hb,
        fun FS st' => load_dispatch_bare pl FS H P source st' hb⟩
    · rcases hp : pathFromFileUrl pl (urlParse source) source with e | p
      · rw [load_file_urlerr pl fs H P source st e hf hp] at h1
        simp at h1
      · exact ⟨p, localPathOf_file pl source p hf hp,
          fun FS st' => load_dispatch_file pl FS H P source p st' hf hp⟩
  have hkey0 : normalizeKey pl source = .ok (pl.asUri (pl.resolve path0)) :=
    normalizeKey_of_localPath pl source path0 hpath0
  rw [hdisp fs st] at h1
  obtain ⟨m0, e0, hstat0, hget0, hspec0, hmt0⟩ :=
    loadPath_ok_post fs P path0 (pl.asUri (pl.resolve path0)) st d c n h1
  constructor
  · rw [hdisp fs c,
      loadPath_hit fs P path0 (pl.asUri (pl.resolve path0)) c m0 e0 hstat0 hget0 hmt0,
      hspec0]
  · intro path key m m' content' d' hpath hkey hm hm' hne hread hparse
    have hpeq : path0 = path := by
      rw [hpath0] at hpath
      exact Option.some.injEq .. ▸ hpath
    subst hpeq
    have hkeq : pl.asUri (pl.resolve path0) = key := by
      rw [hkey0] at hkey
      exact Except.ok.injEq .. ▸ hkey
    subst hkeq
    have hmeq : m0 = m := by
      rw [hstat0] at hm
      exact Except.ok.injEq .. ▸ hm
    have hmt' : e0.mtime ≠ some m' := by
      rw [hmt0]
      intro hco
      exact hne ((Option.some.injEq .. ▸ hco).symm.trans hmeq)
    rw [hdisp fs' c]
    exact loadPath_stale fs' P path0 (pl.asUri (pl.resolve path0)) c m' e0 content' d'
      hm' hget0 hmt' hread hparse

/-- Claim C7: for an http/https source, a successful load leaves the document
cached under the URL string, and every later load of that same URL string on
the same loader returns the cached document unconditionally — no fetch is
performed (io count 0) and the cache entry is not replaced (the cache is
returned unchanged) — for the lifetime of the loader. -/
theorem c7_http_cache_hit_forever (pl : PathLib) (fs : FileSystem)
    (H : HttpClient) (P : Parsers) (source : String) (st : SpecCache)
    (hh : sourceScheme source = "http" ∨ sourceScheme source = "https") :
    (∀ d c n, load pl fs H P source st = ⟨.ok d, c, n⟩ →
      ∃ e, dictGet c source = some e ∧ e.spec = d) ∧
    (∀ e, dictGet st source = some e →
      load pl fs H P source st = ⟨.ok e.spec, st, 0⟩) := by
  constructor
  · intro d c n h
    rw [load_dispatch_http pl fs H P source st hh] at h
    exact loadHttp_ok_post H P source source st d c n h
  · intro e he
    rw [load_dispatch_http pl fs H P source st hh]
    exact loadHttp_hit H P source source st e he

/-! ## Concrete fixtures used by the witnesses -/

/-- A concrete pathlib model: relative paths resolve under `/cwd`. -/
def plFix : PathLib :=
  { resolve := fun s =>
      match s.data with
      | '/' :: _ => s
      | _ => "/cwd/" ++ s,
    urlToPath := fun p => p,
    asUri := fun p => "file://" ++ p }

/-- A concrete filesystem holding `api.yaml` with modification time 100. -/
def fsFix : FileSystem :=
  { stat := fun p => if p = "api.yaml" then .ok 100 else .error .notFound,
    read := fun p => if p = "api.yaml" then .ok "openapi: 3.0.3" else .error "io" }

/-- The same file after an edit: modification time 200, new content. -/
def fsFix2 : FileSystem :=
  { stat := fun p => if p = "api.yaml" then .ok 200 else .error .notFound,
    read := fun p => if p = "api.yaml" then .ok "title: v2" else .error "io" }

def doc1Fix : PyVal := .dict [("openapi", .str "3.0.3")]

def doc2Fix : PyVal := .dict [("title", .str "v2")]

/-- A concrete YAML/JSON library recognising the two fixture documents. -/
def parsersFix : Parsers :=
  { yamlLoad := fun c =>
      if c = "openapi: 3.0.3" then .ok doc1Fix
      else if c = "title: v2" then .ok doc2Fix
      else .error "invalid yaml",
    jsonLoads := fun _ => .error "invalid json" }

/-- A concrete HTTP transport serving one spec URL. -/
def httpFix : HttpClient :=
  { get := fun u =>
      if u = "https://example.com/spec.yaml" then .ok { text := "openapi: 3.0.3" }
      else .error .httpFailure }

def cache1Fix : SpecCache :=
  [("file:///cwd/api.yaml", ⟨doc1Fix, some 100, none, none⟩)]

theorem c1_local_cache_behaviour_witness :
    load plFix fsFix httpFix parsersFix "api.yaml" cache1Fix =
      ⟨.ok doc1Fix, cache1Fix, 0⟩ ∧
    load plFix fsFix2 httpFix parsersFix "api.yaml" cache1Fix =
      ⟨.ok doc2Fix, [("file:///cwd/api.yaml", ⟨doc2Fix, some 200, none, none⟩)], 1⟩ := by
  have h1 : load plFix fsFix httpFix parsersFix "api.yaml" [] =
      ⟨.ok doc1Fix, cache1Fix, 1⟩ := rfl
  have main := c1_local_cache_behaviour plFix fsFix fsFix2 httpFix parsersFix
    "api.yaml" [] doc1Fix cache1Fix 1 (Or.inl rfl) h1
  exact ⟨main.1,
    main.2 "api.yaml" "file:///cwd/api.yaml" 100 200 "title: v2" doc2Fix
      rfl rfl rfl rfl (by decide) rfl rfl⟩

theorem c3_same_file_same_cache_key_witness :
    normalizeKey plFix "specs/api.yaml" = .ok "file:///cwd/specs/api.yaml" ∧
    normalizeKey plFix "specs/api.yaml" =
      normalizeKey plFix "file:///cwd/specs/api.yaml" := by
  have main := c3_same_file_same_cache_key plFix "specs/api.yaml"
    "file:///cwd/specs/api.yaml" "specs/api.yaml" "/cwd/specs/api.yaml"
    rfl rfl rfl
  exact ⟨main.1, main.2⟩

theorem c7_http_cache_hit_forever_witness :
    load plFix fsFix httpFix parsersFix "https://example.com/spec.yaml"
        [("https://example.com/spec.yaml", ⟨doc1Fix, none, none, none⟩)] =
      ⟨.ok doc1Fix,
       [("https://example.com/spec.yaml", ⟨doc1Fix, none, none, none⟩)], 0⟩ ∧
    ∃ e, dictGet [("https://example.com/spec.yaml",
        (⟨doc1Fix, none, none, none⟩ : CacheEntry))] "https://example.com/spec.yaml" =
      some e ∧ e.spec = doc1Fix := by
  have main := c7_http_cache_hit_forever plFix fsFix httpFix parsersFix
    "https://example.com/spec.yaml"
    [("https://example.com/spec.yaml", ⟨doc1Fix, none, none, none⟩)] (Or.inr rfl)
  refine ⟨main.2 ⟨doc1Fix, none, none, none⟩ rfl, ?_⟩
  exact main.1 doc1Fix
    [("https://example.com/spec.yaml", ⟨doc1Fix, none, none, none⟩)] 0
    (main.2 ⟨doc1Fix, none, none, none⟩ rfl)

theorem c10_error_leaves_cache_unchanged_witness :
    (load plFix fsFix httpFix parsersFix "ftp://host/spec.yaml" cache1Fix).cache =
      cache1Fix := by
  exact c10_error_leaves_cache_unchanged plFix fsFix httpFix parsersFix
    "ftp://host/spec.yaml" cache1Fix (.unsupportedSource "ftp://host/spec.yaml") rfl

/-! ## Claim C6: base-URL derivation -/

theorem firstServerUrl_eq_filterMap (servers : List PyVal) :
    firstServerUrl servers = (servers.filterMap fun entry =>
      match entry with
      | .dict d =>
        match dictGet d "url" with
        | some (.str u) => if pyStrip u = "" then none else some (pyStrip u)
        | _ => none
      | _ => none).head? := by
  induction servers with
  | nil => rfl
  | cons candidate rest ih =>
    cases candidate with
    | dict d =>
      rcases hu : dictGet d "url" with _ | u
      · simp [firstServerUrl, hu, ih]
      · cases u with
        | str v =>
          by_cases hv : pyStrip v = ""
          · simp [firstServerUrl, hu, hv, ih]
          · simp [firstServerUrl, hu, hv]
        | int v => simp [firstServerUrl, hu, ih]
        | float v => simp [firstServerUrl, hu, ih]
        | bool v => simp [firstServerUrl, hu, ih]
        | null => simp [firstServerUrl, hu, ih]
        | list xs => simp [firstServerUrl, hu, ih]
        | dict xs => simp [firstServerUrl, hu, ih]
    | str v => simpa [firstServerUrl] using ih
    | int v => simpa [firstServerUrl] using ih
    | float v => simpa [firstServerUrl] using ih
    | bool v => simpa [firstServerUrl] using ih
    | null => simpa [firstServerUrl] using ih
    | list xs => simpa [firstServerUrl] using ih

theorem firstServerUrl_chars (l : List Char) :
    firstServerUrl (l.map fun c => .str (String.mk [c])) = none := by
  induction l with
  | nil => rfl
  | cons c rest ih => simpa [firstServerUrl] using ih

theorem deriveBaseUrl_eq_scan (spec : PyVal) :
    deriveBaseUrl spec = ((serversOf spec).filterMap fun entry =>
      match entry with
      | .dict d =>
        match dictGet d "url" with
        | some (.str u) => if pyStrip u = "" then none else some (pyStrip u)
        | _ => none
      | _ => none).head? := by
  cases spec with
  | dict xs =>
    rcases hs : dictGet xs "servers" with _ | sv
    · simp [deriveBaseUrl, serversOf, hs]
    · cases sv with
      | list servers => simp [deriveBaseUrl, serversOf, hs, firstServerUrl_eq_filterMap]
      | str s => simp [deriveBaseUrl, serversOf, hs, firstServerUrl_chars]
      | int v => simp [deriveBaseUrl, serversOf, hs]
      | float v => simp [deriveBaseUrl, serversOf, hs]
      | bool v => simp [deriveBaseUrl, serversOf, hs]
      | null => simp [deriveBaseUrl, serversOf, hs]
      | dict d => simp [deriveBaseUrl, serversOf, hs]
  | str v => simp [deriveBaseUrl, serversOf]
  | int v => simp [deriveBaseUrl, serversOf]
  | float v => simp [deriveBaseUrl, serversOf]
  | bool v => simp [deriveBaseUrl, serversOf]
  | null => simp [deriveBaseUrl, serversOf]
  | list xs => simp [deriveBaseUrl, serversOf]

/-- Claim C6: the client's effective base URL is the explicit
`RuntimeConfig.base_url` when set (present and non-empty); otherwise it comes
from the first entry of the document's `servers` list, in list order, whose
`url` field is a string with non-blank content (that url, stripped of
surrounding whitespace); otherwise no base URL is set. -/
theorem c6_effective_base_url (config : RuntimeConfig) (spec : PyVal) :
    effectiveBaseUrl config spec = claimedBaseUrl config spec := by
  unfold effectiveBaseUrl claimedBaseUrl
  rcases hb : config.base_url with _ | b
  · simp [deriveBaseUrl_eq_scan]
  · by_cases hbe : b = ""
    · subst hbe
      simp [deriveBaseUrl_eq_scan]
    · simp [hbe, deriveBaseUrl_eq_scan]

/-! ## Claim C9: the registry refuses to switch sources -/

/-- Claim C9: once the module-level proxy registry has been created for a
given OpenAPI source, any request supplying a configuration with a different
`openapi_source` fails fast with the dedicated error — whatever the build
function or memoisation state, the proxy is never rebuilt against the other
source. -/
theorem c9_refuse_source_switch {Proxy : Type}
    (build : RuntimeConfig → Except String Proxy)
    (reg : ProxyRegistryState Proxy) (c : RuntimeConfig)
    (h : c.openapi_source ≠ reg.config.openapi_source) :
    getProxyInstance build (some reg) (some c) = .error differentSourceMsg := by
  simp [getProxyInstance, h]

theorem c9_refuse_source_switch_witness :
    getProxyInstance (fun _ => .ok (0 : Nat))
      (some { config := { openapi_source := "a.yaml" }, proxyInst := some 0 })
      (some { openapi_source := "b.yaml" }) = .error differentSourceMsg :=
  c9_refuse_source_switch (fun _ => .ok (0 : Nat))
    { config := { openapi_source := "a.yaml" }, proxyInst := some 0 }
    { openapi_source := "b.yaml" } (by decide)

/-! ## Claim C2: configuration merge precedence -/

/-- A numeric-conversion fixture (never invoked by the witnesses). -/
def prFix : PyPrims :=
  { floatOfStr := fun _ => .error "ValueError", intOfStr := fun _ => .error "ValueError" }

/-- Claim C2: for every configuration key the merged configuration takes the
value from the highest-precedence layer that sets it — config file (lowest),
then environment, then CLI (highest), per key rather than per fragment (the
layers carry unique keys, as Python dicts do); and concretely, with the
spec-source environment variable set to `env.yaml` and the CLI flag set to
`cli.yaml`, the resolved `openapi_source` is `"cli.yaml"`. -/
theorem c2_merge_precedence :
    (∀ (f e c : PyDict) (k : String),
      (f.map Prod.fst).Nodup → (e.map Prod.fst).Nodup → (c.map Prod.fst).Nodup →
      dictGet (mergeLayers f e c) k =
        (dictGet c k <|> (dictGet e k <|> dictGet f k))) ∧
    (∀ (pr : PyPrims) (P : Parsers) (rc : RuntimeConfig),
      loadRuntimeConfig pr P [] [("MCP_PROXY_SPEC", "env.yaml")]
        { openapi_spec := some "cli.yaml" } = .ok rc →
      rc.openapi_source = "cli.yaml") := by
  constructor
  · intro f e c k hf he hc
    unfold mergeLayers
    rw [dictGet_dictUpdate _ c k hc, dictGet_dictUpdate _ e k he,
      dictGet_dictUpdate _ f k hf]
    cases dictGet c k <;> cases dictGet e k <;> cases dictGet f k <;> rfl
  · intro pr P rc h
    have heval : loadRuntimeConfig pr P [] [("MCP_PROXY_SPEC", "env.yaml")]
        { openapi_spec := some "cli.yaml" } = .ok { openapi_source := "cli.yaml" } := rfl
    rw [heval] at h
    have hrc : ({ openapi_source := "cli.yaml" } : RuntimeConfig) = rc :=
      Except.ok.injEq .. ▸ h
    rw [← hrc]

theorem c2_merge_precedence_witness :
    dictGet (mergeLayers [("server_name", PyVal.str "file")]
        [("server_name", PyVal.str "env")] []) "server_name" =
      some (PyVal.str "env") ∧
    ({ openapi_source := "cli.yaml" } : RuntimeConfig).openapi_source = "cli.yaml" := by
  constructor
  · have h := c2_merge_precedence.1 [("server_name", PyVal.str "file")]
      [("server_name", PyVal.str "env")] [] "server_name"
      (by decide) (by decide) (by decide)
    rw [h]
    rfl
  · exact c2_merge_precedence.2 prFix parsersFix { openapi_source := "cli.yaml" } rfl

/-! ## Claim C4: unknown auth schemes pass config merge, fail at resolution -/

/-- Counterexample to claim C4 as stated: the scheme string `"BEARER"` is
outside the literal set {none, bearer, basic, header, api-key, ""}, yet
auth-config construction at merge time does not succeed retaining it — the
lowercasing in `_build_auth_config` routes it into the bearer branch, which
fails eagerly (with a `ConfigError` at config-merge time) when no token is
supplied. -/
theorem c4_counterexample :
    "BEARER" ∉ (["", "none", "bearer", "basic", "header", "api-key"] : List String) ∧
    buildAuthConfig [("auth_type", .str "BEARER")] =
      .error "Bearer authentication requires auth_token" := by
  refine ⟨by decide, rfl⟩

/-- Claim C4 (amended): for every auth_type string whose lowercased form is
outside {none, bearer, basic, header, api-key, ""} (schemes are compared
after lowercasing), auth-config construction during config merge succeeds,
building an AuthConfig that retains that lowercased scheme, and resolving it
to a strategy fails with an error naming the unsupported scheme — rejection
of unknown schemes happens only at strategy-resolution time. -/
theorem c4_unknown_scheme_rejected_late (s : String) (data : PyDict)
    (hty : dictGet data "auth_type" = some (.str s))
    (hhd : dictGet data "auth_headers" = none)
    (hs : lowerStr s ∉ ["", "none", "bearer", "basic", "header", "api-key"]) :
    buildAuthConfig data = .ok { scheme := lowerStr s } ∧
    createAuthStrategy { scheme := lowerStr s } =
      .error ("Unsupported authentication scheme: " ++ lowerStr s) := by
  simp only [List.mem_cons, List.mem_singleton, not_or, List.not_mem_nil] at hs
  obtain ⟨hs1, hs2, hs3, hs4, hs5, hs6, -⟩ := hs
  constructor
  · simp only [buildAuthConfig, hty, Option.getD_some, pyStr]
    rw [if_neg hs3, if_neg hs4, if_neg hs5, if_neg hs6,
      if_neg (not_or.mpr ⟨hs1, hs2⟩), hhd]
    rfl
  · simp only [createAuthStrategy]
    rw [if_neg hs1, lowerStr_idem]
    rw [if_neg (not_or.mpr ⟨hs2, hs1⟩), if_neg hs3, if_neg hs4, if_neg hs5, if_neg hs6]
    rfl

theorem c4_unknown_scheme_rejected_late_witness :
    buildAuthConfig [("auth_type", .str "digest")] = .ok { scheme := "digest" } ∧
    createAuthStrategy { scheme := "digest" } =
      .error "Unsupported authentication scheme: digest" :=
  c4_unknown_scheme_rejected_late "digest" [("auth_type", .str "digest")]
    rfl rfl (by decide)

/-! ## Claim C5: api-key injection into exactly one view -/

theorem dictGet_dictUpdate_of_none {α : Type} (d o : List (String × α)) (k : String)
    (h : dictGet o k = none) : dictGet (dictUpdate d o) k = dictGet d k := by
  induction o generalizing d with
  | nil => rfl
  | cons kv rest ih =>
    obtain ⟨k0, v0⟩ := kv
    simp only [dictGet] at h
    by_cases h0 : k0 = k
    · rw [if_pos h0] at h
      cases h
    · rw [if_neg h0] at h
      have step : dictUpdate d ((k0, v0) :: rest) = dictUpdate (dictSet d k0 v0) rest := rfl
      rw [step, ih _ h, dictGet_dictSet_ne _ _ _ _ h0]

def c5BadConfig : AuthConfig :=
  { scheme := "api-key", api_key_name := some "K", api_key_value := some "v",
    api_key_location := "query", extra_headers := [("K", "other")] }

/-- Counterexample to claim C5 as stated: an api-key AuthConfig whose
`extra_headers` also set the key name. The key/value pair goes into the query
view, but the headers view also ends up containing that key (the
`extra_headers` update runs after the scheme-specific injection), so "the
other two views do not contain that key" fails for this AuthConfig. -/
theorem c5_counterexample :
    (createAuthStrategy c5BadConfig).map
        (fun st => (dictGet st.query_params "K", dictGet st.headers "K",
          dictGet st.cookies "K")) =
      .ok (some "v", some "other", none) := rfl

/-- Claim C5 (amended): for every api-key AuthConfig, resolution fails when
the key value is missing, and with a value present the name defaults to the
placeholder `X-API-Key` and the location to `header` when unset (or blank);
a location whose lowercased form is outside {header, query, cookie} fails
resolution; otherwise the name/value pair is injected into exactly the view
selected by the location and — provided the extra headers do not themselves
set that key name — the other two views do not contain that key. -/
theorem c5_api_key_injection (config : AuthConfig)
    (hscheme : config.scheme = "api-key") :
    (config.api_key_value = none →
      createAuthStrategy config = .error "API key authentication requires a key value") ∧
    (∀ v, config.api_key_value = some v →
      (apiKeyLocation config ∉ (["header", "query", "cookie"] : List String) →
        createAuthStrategy config =
          .error "Unsupported API key location; expected header/query/cookie") ∧
      (dictGet config.extra_headers (apiKeyName config) = none →
        (apiKeyLocation config = "header" →
          (createAuthStrategy config).map
            (fun st => (dictGet st.headers (apiKeyName config),
              dictGet st.query_params (apiKeyName config),
              dictGet st.cookies (apiKeyName config))) = .ok (some v, none, none)) ∧
        (apiKeyLocation config = "query" →
          (createAuthStrategy config).map
            (fun st => (dictGet st.headers (apiKeyName config),
              dictGet st.query_params (apiKeyName config),
              dictGet st.cookies (apiKeyName config))) = .ok (none, some v, none)) ∧
        (apiKeyLocation config = "cookie" →
          (createAuthStrategy config).map
            (fun st => (dictGet st.headers (apiKeyName config),
              dictGet st.query_params (apiKeyName config),
              dictGet st.cookies (apiKeyName config))) = .ok (none, none, some v)))) := by
  have hbranch : createAuthStrategy config =
      (match config.api_key_value with
        | none => Except.error "API key authentication requires a key value"
        | some v =>
          if apiKeyLocation config = "header" then
            Except.ok { headers := dictUpdate (dictSet [] (apiKeyName config) v)
                          config.extra_headers,
                        auth := none, query_params := [], cookies := [] }
          else if apiKeyLocation config = "query" then
            Except.ok { headers := dictUpdate [] config.extra_headers, auth := none,
                        query_params := dictSet [] (apiKeyName config) v, cookies := [] }
          else if apiKeyLocation config = "cookie" then
            Except.ok { headers := dictUpdate [] config.extra_headers, auth := none,
                        query_params := [], cookies := dictSet [] (apiKeyName config) v }
          else Except.error "Unsupported API key location; expected header/query/cookie") := by
    simp only [createAuthStrategy, hscheme]
    rw [if_neg (show ¬("api-key" : String) = "" by decide)]
    rw [show lowerStr "api-key" = "api-key" from rfl]
    rw [if_neg (show ¬(("api-key" : String) = "none" ∨ ("api-key" : String) = "") by decide),
      if_neg (show ¬("api-key" : String) = "bearer" by decide),
      if_neg (show ¬("api-key" : String) = "basic" by decide),
      if_neg (show ¬("api-key" : String) = "header" by decide),
      if_pos (show ("api-key" : String) = "api-key" from rfl)]
    rcases config.api_key_value with _ | v
    · rfl
    · by_cases h1 : apiKeyLocation config = "header"
      · simp only [if_pos h1]
        rfl
      · by_cases h2 : apiKeyLocation config = "query"
        · simp only [if_neg h1, if_pos h2]
          rfl
        · by_cases h3 : apiKeyLocation config = "cookie"
          · simp only [if_neg h1, if_neg h2, if_pos h3]
            rfl
          · simp only [if_neg h1, if_neg h2, if_neg h3]
            rfl
  constructor
  · intro hv
    simp only [hbranch, hv]
  · intro v hv
    refine ⟨?_, fun hextra => ⟨?_, ?_, ?_⟩⟩
    · intro hloc
      simp only [List.mem_cons, List.mem_singleton, not_or, List.not_mem_nil] at hloc
      obtain ⟨hl1, hl2, hl3, -⟩ := hloc
      simp only [hbranch, hv, if_neg hl1, if_neg hl2, if_neg hl3]
    · intro hloc
      simp only [hbranch, hv, if_pos hloc]
      simp [Except.map, dictGet_dictUpdate_of_none _ _ _ hextra,
        dictGet_dictSet_self, dictGet]
    · intro hloc
      have h1 : ¬apiKeyLocation config = "header" := by
        rw [hloc]
        decide
      simp only [hbranch, hv, if_neg h1, if_pos hloc]
      simp [Except.map, dictGet_dictUpdate_of_none _ _ _ hextra,
        dictGet_dictSet_self, dictGet]
    · intro hloc
      have h1 : ¬apiKeyLocation config = "header" := by
        rw [hloc]
        decide
      have h2 : ¬apiKeyLocation config = "query" := by
        rw [hloc]
        decide
      simp only [hbranch, hv, if_neg h1, if_neg h2, if_pos hloc]
      simp [Except.map, dictGet_dictUpdate_of_none _ _ _ hextra,
        dictGet_dictSet_self, dictGet]

def c5QueryConfig : AuthConfig :=
  { scheme := "api-key", api_key_value := some "qv", api_key_location := "query" }

theorem c5_api_key_injection_witness :
    (createAuthStrategy c5QueryConfig).map
      (fun st => (dictGet st.headers "X-API-Key", dictGet st.query_params "X-API-Key",
        dictGet st.cookies "X-API-Key")) = .ok (none, some "qv", none) := by
  have main := ((c5_api_key_injection c5QueryConfig rfl).2 "qv" rfl).2 rfl
  exact main.2.1 rfl

/-! ## Claim C8: header key/value parsing -/

theorem splitFirst_of_mem (sep : Char) (l : List Char) (h : sep ∈ l) :
    splitFirst sep l =
      some (l.takeWhile (fun c => c != sep), (l.dropWhile (fun c => c != sep)).tail) := by
  induction l with
  | nil => cases h
  | cons c rest ih =>
    by_cases hc : c = sep
    · subst hc
      simp [splitFirst, List.takeWhile, List.dropWhile]
    · have hmem : sep ∈ rest := by
        rcases List.mem_cons.mp h with h' | h'
        · exact absurd h'.symm hc
        · exact h'
      have hb : (c != sep) = true := by
        simp [bne_iff_ne, hc]
      simp [splitFirst, hc, ih hmem, List.takeWhile, List.dropWhile, hb]

theorem splitFirst_of_not_mem (sep : Char) (l : List Char) (h : sep ∉ l) :
    splitFirst sep l = none := by
  induction l with
  | nil => rfl
  | cons c rest ih =>
    have hc : ¬c = sep := fun hh => h (hh ▸ List.mem_cons_self c rest)
    have hrest : sep ∉ rest := fun hh => h (List.mem_cons_of_mem c hh)
    simp [splitFirst, hc, ih hrest]

/-- Scan for the first character that is either separator. -/
def splitAtFirstSep : List Char → Option (List Char × List Char)
  | [] => none
  | c :: rest =>
    if c = '=' ∨ c = ':' then some ([], rest)
    else
      match splitAtFirstSep rest with
      | some (pre, post) => some (c :: pre, post)
      | none => none

/-- Written from the claim's words, for comparison with the code: split at
the first separator character occurring in the string, whichever of `=` or
`:` appears first, trimming both sides. -/
def claimedKeyValueSplit (raw : String) : Except String (String × String) :=
  match splitAtFirstSep raw.data with
  | some (k, v) => .ok (pyStrip (String.mk k), pyStrip (String.mk v))
  | none => .error "Header must be in KEY=VALUE or KEY:VALUE format"

/-- Counterexample to claim C8 as stated: in `"a:b=c"` the first separator
occurring in the string is the `:`, so the claimed split is `("a", "b=c")`;
the code checks for `=` membership first and splits at the `=`, producing
`("a:b", "c")`. -/
theorem c8_counterexample :
    parseKeyValue "a:b=c" = .ok ("a:b", "c") ∧
    claimedKeyValueSplit "a:b=c" = .ok ("a", "b=c") ∧
    parseKeyValue "a:b=c" ≠ claimedKeyValueSplit "a:b=c" := by
  refine ⟨rfl, rfl, fun h => ?_⟩
  rw [show parseKeyValue "a:b=c" = .ok ("a:b", "c") from rfl,
    show claimedKeyValueSplit "a:b=c" = .ok ("a", "b=c") from rfl] at h
  simp at h

/-- Claim C8 (amended): parsing splits at the first `=` whenever the string
contains `=` anywhere — even when a `:` occurs earlier — and otherwise at
the first `:`; both sides are trimmed of surrounding whitespace; a string
containing neither separator fails with a ConfigError. -/
theorem c8_key_value_split (raw : String) :
    ('=' ∈ raw.data →
      parseKeyValue raw = .ok
        (pyStrip (String.mk (raw.data.takeWhile (fun c => c != '='))),
         pyStrip (String.mk ((raw.data.dropWhile (fun c => c != '=')).tail)))) ∧
    ('=' ∉ raw.data → ':' ∈ raw.data →
      parseKeyValue raw = .ok
        (pyStrip (String.mk (raw.data.takeWhile (fun c => c != ':'))),
         pyStrip (String.mk ((raw.data.dropWhile (fun c => c != ':')).tail)))) ∧
    ('=' ∉ raw.data → ':' ∉ raw.data →
      parseKeyValue raw = .error "Header must be in KEY=VALUE or KEY:VALUE format") := by
  refine ⟨fun he => ?_, fun hne hc => ?_, fun hne hnc => ?_⟩
  · simp [parseKeyValue, splitFirst_of_mem '=' raw.data he]
  · simp [parseKeyValue, splitFirst_of_not_mem '=' raw.data hne,
      splitFirst_of_mem ':' raw.data hc]
  · simp [parseKeyValue, splitFirst_of_not_mem '=' raw.data hne,
      splitFirst_of_not_mem ':' raw.data hnc]

theorem c8_key_value_split_witness :
    parseKeyValue "X-Debug : true" = .ok ("X-Debug", "true") := by
  have main := (c8_key_value_split "X-Debug : true").2.1 (by decide) (by decide)
  exact main
